import Mathlib

/-!
# Verification of the question/answer DAO layer

Shallow embedding of `src/models/mod.rs` and `src/persistence/mod.rs`.

* UUIDs are modelled as their 128-bit value (`Nat`); `Uuid::parse_str` of the
  `uuid` crate is modelled by `uuidParseStr` (accepting the simple, hyphenated,
  URN and braced textual encodings).
* The Postgres store is modelled as two lists of typed rows (`Store`); the
  `likes` column is a 32-bit signed integer modelled as `Int` with explicit
  wrapping (`wrap32`) where the Rust code performs `likes + 1` in `i32`.
* Every statement issued against the store can succeed or fail; the outcome of
  each statement kind is injected through an `Env` record, mirroring the fact
  that each `sqlx` call returns a `Result`.
* Each DAO method returns the list of statements it issued against the store
  together with a `RunResult`: `ok` carries the store after commit, `err`
  carries the `DbError` (the store is unchanged: a failed single statement or
  an uncommitted transaction leaves no effect), and `panicked` models a Rust
  panic (`Row::get` on a missing column unwraps a failure).
-/

/-! ## UUID parsing (`sqlx::types::Uuid`, i.e. the `uuid` crate) -/

def isHexDigit (c : Char) : Bool :=
  (('0' ≤ c && c ≤ '9') || ('a' ≤ c && c ≤ 'f') || ('A' ≤ c && c ≤ 'F'))

def hexVal (c : Char) : Nat :=
  if '0' ≤ c && c ≤ '9' then c.toNat - '0'.toNat
  else if 'a' ≤ c && c ≤ 'f' then c.toNat - 'a'.toNat + 10
  else if 'A' ≤ c && c ≤ 'F' then c.toNat - 'A'.toNat + 10
  else 0

/-- Value of a list of hex digits, most significant first. -/
def hexValList (cs : List Char) : Nat :=
  cs.foldl (fun a c => a * 16 + hexVal c) 0

/-- A group of exactly `n` hex digits, as used between the hyphens of a
hyphenated UUID. -/
def hexGroup (cs : List Char) (n : Nat) : Option Nat :=
  if cs.length = n && cs.all isHexDigit then some (hexValList cs) else none

/-- Split a character list on `'-'` (every occurrence separates groups). -/
def splitDash : List Char → List (List Char)
  | [] => [[]]
  | c :: cs =>
    if c = '-' then [] :: splitDash cs
    else
      match splitDash cs with
      | g :: gs => (c :: g) :: gs
      | [] => [[c]]

/-- The hyphenated UUID form: five hex groups of sizes 8-4-4-4-12 separated by
single hyphens (the `uuid` crate's `parse_hyphenated`). Returns the 128-bit
value. -/
def parseHyphenated (cs : List Char) : Option Nat :=
  match splitDash cs with
  | [a, b, c, d, e] =>
    match hexGroup a 8, hexGroup b 4, hexGroup c 4, hexGroup d 4, hexGroup e 12 with
    | some va, some vb, some vc, some vd, some ve =>
      some ((((va * 16 ^ 4 + vb) * 16 ^ 4 + vc) * 16 ^ 4 + vd) * 16 ^ 12 + ve)
    | _, _, _, _, _ => none
  | _ => none

/-- The simple UUID form: exactly 32 hex digits, no hyphens. -/
def parseSimple (cs : List Char) : Option Nat :=
  if cs.length = 32 && cs.all isHexDigit then some (hexValList cs) else none

/-- `Uuid::parse_str` of the `uuid` crate: dispatches on the input length and
accepts the simple (32 chars), hyphenated (36 chars), URN (45 chars,
`urn:uuid:` prefix) and braced (38 chars) textual encodings. -/
def uuidParseStr (s : String) : Option Nat :=
  let cs := s.data
  if cs.length = 32 then parseSimple cs
  else if cs.length = 36 then parseHyphenated cs
  else if cs.length = 45 then
    if cs.take 9 = "urn:uuid:".data then parseHyphenated (cs.drop 9) else none
  else if cs.length = 38 then
    match cs with
    | '{' :: rest =>
      if rest.getLast? = some '}' then parseHyphenated rest.dropLast else none
    | _ => none
  else none

/-! ## Entity model (`src/models/mod.rs`) -/

/-- `EntityId`: a wrapper for a caller-supplied identifier string. -/
structure EntityId where
  id : String
deriving DecidableEq

/-- `impl TryInto<Uuid> for EntityId`:
`Uuid::parse_str(self.id.as_str()).map_err(|_| "unable to parse as uuid")`. -/
def EntityId.tryIntoUuid (e : EntityId) : Except String Nat :=
  match uuidParseStr e.id with
  | some u => .ok u
  | none => .error "unable to parse as uuid"

/-- `NewQuestion { title, question }`. -/
structure NewQuestion where
  title : String
  question : String
deriving DecidableEq

/-- `NewAnswer { question_id, answer }` — `question_id` is a plain string. -/
structure NewAnswer where
  question_id : String
  answer : String
deriving DecidableEq

/-- A row of the `questions` table / the `Question` record. `likes` is the
`i32` column value; `created_at` abstracts the timestamp. -/
structure QuestionRow where
  id : Nat
  title : String
  question : String
  likes : Int
  created_at : Nat
deriving DecidableEq

/-- A row of the `answers` table / the `Answer` record. -/
structure AnswerRow where
  id : Nat
  question_id : Nat
  answer : String
  likes : Int
  created_at : Nat
deriving DecidableEq

/-- `DbError` (`src/models/mod.rs`): the closed error taxonomy. The wrapped
`sqlx::Error` payloads are abstracted away; `InvalidUuid` keeps its static
diagnostic string. -/
inductive DbError where
  | Creation
  | NotFound
  | InvalidUuid (msg : String)
  | Access
  | FromRow
  | Deletion
  | Update
  | Commit
deriving DecidableEq

/-! ## Store and execution model -/

/-- The two tables of the relational store. -/
structure Store where
  questions : List QuestionRow
  answers : List AnswerRow
deriving DecidableEq

/-- The kinds of statements / round trips a DAO method issues. -/
inductive Stmt where
  | beginTx
  | select
  | insert
  | update
  | delete
  | commit
deriving DecidableEq

/-- Outcome of a DAO method: `ok` carries the store visible after the method
returns (committed effects applied), `err` leaves the store unchanged
(failed statement or rolled-back transaction), `panicked` models a Rust
panic. -/
inductive RunResult (α : Type) where
  | ok (s : Store) (a : α)
  | err (e : DbError)
  | panicked
deriving DecidableEq

/-- Injected outcomes for each statement kind one method may issue (each
`sqlx` call can return `Err` for store-side reasons such as a lost
connection). -/
structure Env where
  beginOk : Bool
  selectOk : Bool
  insertOk : Bool
  updateOk : Bool
  deleteOk : Bool
  commitOk : Bool
  fromRowOk : Bool
deriving DecidableEq

/-- The environment in which every store interaction succeeds. -/
def envAllOk : Env :=
  { beginOk := true, selectOk := true, insertOk := true, updateOk := true,
    deleteOk := true, commitOk := true, fromRowOk := true }

/-- `wrap32 n` is the value of the `i32` whose two's-complement bit pattern
is `n % 2^32`: Rust's release-mode `i32` addition wraps. -/
def wrap32 (n : Int) : Int :=
  (n + 2 ^ 31) % 2 ^ 32 - 2 ^ 31

/-- `Row::get::<i32, &str>(col)` on a row holding the listed named columns:
`none` models the `ColumnNotFound` failure that `get` unwraps into a panic. -/
def rowGetI32 (row : List (String × Int)) (col : String) : Option Int :=
  (row.find? (fun p => p.1 == col)).map Prod.snd

/-! ## `QuestionDaoImpl` (`src/persistence/mod.rs`) -/

/-- `create_question`: `INSERT INTO questions (title, question) VALUES ($1,$2)
returning id`, `fetch_one`, errors mapped to `Creation`. The store assigns the
new id and timestamp (`newId`, `now`); the `likes` column defaults to 0. -/
def create_question (env : Env) (db : Store) (newId now : Nat)
    (new_question : NewQuestion) : List Stmt × RunResult Nat :=
  if env.insertOk then
    ([.insert],
     .ok { db with questions :=
             db.questions ++
               [{ id := newId, title := new_question.title,
                  question := new_question.question, likes := 0,
                  created_at := now }] }
       newId)
  else ([.insert], .err .Creation)

/-- `get_question`: parse the id (`InvalidUuid` on failure), then
`SELECT * FROM questions WHERE id = $1`, `fetch_one`, every fetch error —
including zero rows — mapped to `NotFound`. -/
def get_question (env : Env) (db : Store) (question_id : EntityId) :
    List Stmt × RunResult QuestionRow :=
  match question_id.tryIntoUuid with
  | .error e => ([], .err (.InvalidUuid e))
  | .ok qid =>
    if env.selectOk then
      match db.questions.find? (fun r => r.id == qid) with
      | some r => ([.select], .ok db r)
      | none => ([.select], .err .NotFound)
    else ([.select], .err .NotFound)

/-- `get_questions`: `SELECT * FROM questions`, `fetch_all` error mapped to
`Access`, then each row mapped through `Question::from_row` (`FromRow` on
failure), collected so that one failure aborts the whole result. -/
def get_questions (env : Env) (db : Store) :
    List Stmt × RunResult (List QuestionRow) :=
  if env.selectOk then
    if env.fromRowOk || db.questions.isEmpty then
      ([.select], .ok db db.questions)
    else ([.select], .err .FromRow)
  else ([.select], .err .Access)

/-- `delete_question`: parse the id, `begin` (`Access` on failure), existence
check by `SELECT * FROM questions WHERE id = $1` (`NotFound` on failure or
zero rows), `DELETE ... RETURNING id` fetched as the deleted id (`Deletion`
on failure, in which case no commit is issued), then `commit` — whose
failure the source maps to `Access`. -/
def delete_question (env : Env) (db : Store) (question_id : EntityId) :
    List Stmt × RunResult Nat :=
  match question_id.tryIntoUuid with
  | .error e => ([], .err (.InvalidUuid e))
  | .ok qid =>
    if env.beginOk then
      if env.selectOk then
        match db.questions.find? (fun r => r.id == qid) with
        | some _ =>
          if env.deleteOk then
            if env.commitOk then
              ([.beginTx, .select, .delete, .commit],
               .ok { db with questions :=
                       db.questions.filter (fun r => !(r.id == qid)) }
                 qid)
            else ([.beginTx, .select, .delete, .commit], .err .Access)
          else ([.beginTx, .select, .delete], .err .Deletion)
        | none => ([.beginTx, .select], .err .NotFound)
      else ([.beginTx, .select], .err .NotFound)
    else ([.beginTx], .err .Access)

/-- `increment_question_likes`: parse the id, `begin` (`Access` on failure),
`SELECT likes FROM questions WHERE id = $1` fetched through
`row.get::<i32,_>("likes")` (`NotFound` on failure or zero rows), then
`UPDATE questions SET likes = $1 WHERE id = $2` with `likes + 1` computed in
`i32` (`Update` on failure), then `commit` (`Commit` on failure). -/
def increment_question_likes (env : Env) (db : Store) (question_id : EntityId) :
    List Stmt × RunResult Unit :=
  match question_id.tryIntoUuid with
  | .error e => ([], .err (.InvalidUuid e))
  | .ok qid =>
    if env.beginOk then
      if env.selectOk then
        match db.questions.find? (fun r => r.id == qid) with
        | some r =>
          match rowGetI32 [("likes", r.likes)] "likes" with
          | none => ([.beginTx, .select], .panicked)
          | some likes =>
            if env.updateOk then
              if env.commitOk then
                ([.beginTx, .select, .update, .commit],
                 .ok { db with questions :=
                         db.questions.map (fun q =>
                           if q.id == qid then
                             { q with likes := wrap32 (likes + 1) }
                           else q) }
                   ())
              else ([.beginTx, .select, .update, .commit], .err .Commit)
            else ([.beginTx, .select, .update], .err .Update)
        | none => ([.beginTx, .select], .err .NotFound)
      else ([.beginTx, .select], .err .NotFound)
    else ([.beginTx], .err .Access)

/-! ## `AnswerDaoImpl` (`src/persistence/mod.rs`) -/

/-- `create_answer`: parse `new_answer.question_id` with `Uuid::parse_str`
(`InvalidUuid("invalid uuid")` on failure, before any statement), then
`INSERT INTO answers (question_id, answer) ... returning id` (`Creation` on
failure; the store's foreign key makes the insert fail when no question with
`question_id` exists). -/
def create_answer (env : Env) (db : Store) (newId now : Nat)
    (new_answer : NewAnswer) : List Stmt × RunResult Nat :=
  match uuidParseStr new_answer.question_id with
  | none => ([], .err (.InvalidUuid "invalid uuid"))
  | some qid =>
    if env.insertOk && db.questions.any (fun q => q.id == qid) then
      ([.insert],
       .ok { db with answers :=
               db.answers ++
                 [{ id := newId, question_id := qid,
                    answer := new_answer.answer, likes := 0,
                    created_at := now }] }
         newId)
    else ([.insert], .err .Creation)

/-- `get_answer`: parse the id, then `SELECT * FROM answers WHERE id = $1`,
`fetch_one`, every fetch error — including zero rows — mapped to `Access`
(not `NotFound`). -/
def get_answer (env : Env) (db : Store) (answer_id : EntityId) :
    List Stmt × RunResult AnswerRow :=
  match answer_id.tryIntoUuid with
  | .error e => ([], .err (.InvalidUuid e))
  | .ok aid =>
    if env.selectOk then
      match db.answers.find? (fun r => r.id == aid) with
      | some r => ([.select], .ok db r)
      | none => ([.select], .err .Access)
    else ([.select], .err .Access)

/-- `get_answers`: parse the question id, `SELECT * FROM answers WHERE
question_id = $1`, `fetch_all` error mapped to `Access`, then each row mapped
through `Answer::from_row` (`FromRow` on failure), collected so that one
failure aborts the whole result. -/
def get_answers (env : Env) (db : Store) (question_id : EntityId) :
    List Stmt × RunResult (List AnswerRow) :=
  match question_id.tryIntoUuid with
  | .error e => ([], .err (.InvalidUuid e))
  | .ok qid =>
    if env.selectOk then
      let rows := db.answers.filter (fun r => r.question_id == qid)
      if env.fromRowOk || rows.isEmpty then
        ([.select], .ok db rows)
      else ([.select], .err .FromRow)
    else ([.select], .err .Access)

/-- `get_all_answers`: `query_as::<_, Answer>("SELECT * FROM answers")`,
`fetch_all`, every error mapped to `Access`. Row decoding happens inside
`fetch_all` here, so a row-mapping failure also surfaces as `Access`. -/
def get_all_answers (env : Env) (db : Store) :
    List Stmt × RunResult (List AnswerRow) :=
  if env.selectOk && (env.fromRowOk || db.answers.isEmpty) then
    ([.select], .ok db db.answers)
  else ([.select], .err .Access)

/-- `delete_answer`: parse the id, then execute a single statement directly
on the pool — no transaction, no existence check. The statement text is
`DELETE * FROM answers WHERE id = $1` (not valid SQL, so against a real
store it always errors); an execution error is mapped to `Access`, and on
success the method returns the parsed input id, whether or not a row
matched. -/
def delete_answer (env : Env) (db : Store) (answer_id : EntityId) :
    List Stmt × RunResult Nat :=
  match answer_id.tryIntoUuid with
  | .error e => ([], .err (.InvalidUuid e))
  | .ok aid =>
    if env.deleteOk then
      ([.delete],
       .ok { db with answers := db.answers.filter (fun r => !(r.id == aid)) }
         aid)
    else ([.delete], .err .Access)

/-- `increment_answer_likes`: parse the id, `begin` (`Access` on failure),
`SELECT likes FROM answers WHERE id = $1` — so the fetched row carries the
single column `likes` — mapped through `row.get::<i32,_>("id")` (`NotFound`
on fetch failure or zero rows). When a row is found, the `get` of the absent
`id` column panics, so the update and commit of the source are never
reached. -/
def increment_answer_likes (env : Env) (db : Store) (answer_id : EntityId) :
    List Stmt × RunResult Unit :=
  match answer_id.tryIntoUuid with
  | .error e => ([], .err (.InvalidUuid e))
  | .ok aid =>
    if env.beginOk then
      if env.selectOk then
        match db.answers.find? (fun r => r.id == aid) with
        | some r =>
          match rowGetI32 [("likes", r.likes)] "id" with
          | none => ([.beginTx, .select], .panicked)
          | some likes =>
            if env.updateOk then
              if env.commitOk then
                ([.beginTx, .select, .update, .commit],
                 .ok { db with answers :=
                         db.answers.map (fun a =>
                           if a.id == aid then
                             { a with likes := wrap32 (likes + 1) }
                           else a) }
                   ())
              else ([.beginTx, .select, .update, .commit], .err .Commit)
            else ([.beginTx, .select, .update], .err .Update)
        | none => ([.beginTx, .select], .err .NotFound)
      else ([.beginTx, .select], .err .NotFound)
    else ([.beginTx], .err .Access)

/-! ## Concrete fixtures used by witnesses and counterexamples -/

/-- A sample persisted question with id 1 and no likes. -/
def qRow1 : QuestionRow :=
  { id := 1, title := "Test Question", question := "Hello this question is a test",
    likes := 0, created_at := 0 }

/-- A sample persisted answer to `qRow1` with id 2 and no likes. -/
def aRow1 : AnswerRow :=
  { id := 2, question_id := 1, answer := "a test answer", likes := 0, created_at := 0 }

/-- A store holding `qRow1` and `aRow1`. -/
def store1 : Store := { questions := [qRow1], answers := [aRow1] }

/-- The hyphenated textual form of UUID value 1. -/
def eid1 : EntityId := ⟨"00000000-0000-0000-0000-000000000001"⟩

/-- The hyphenated textual form of UUID value 2. -/
def eid2 : EntityId := ⟨"00000000-0000-0000-0000-000000000002"⟩

/-! ## C1: contract of `increment_question_likes` -/

/-- C1: for every identifier whose string form parses as a UUID,
`increment_question_likes` runs inside a single transaction: it reads the
current `likes` value of the matching row (`DbError.NotFound` if the fetch
fails or no row matches), writes back that value plus one — computed in
`i32` — (`DbError.Update` if the update fails), then commits
(`DbError.Commit` if the commit fails); on success it returns `Ok(())`. -/
theorem C1_increment_question_likes_contract
    (env : Env) (db : Store) (eid : EntityId) (qid : Nat)
    (hparse : eid.tryIntoUuid = .ok qid) (hbegin : env.beginOk = true) :
    ((env.selectOk = false ∨ db.questions.find? (fun r => r.id == qid) = none) →
       increment_question_likes env db eid = ([.beginTx, .select], .err .NotFound)) ∧
    (∀ r, env.selectOk = true → db.questions.find? (fun r => r.id == qid) = some r →
       ((env.updateOk = false →
          increment_question_likes env db eid
            = ([.beginTx, .select, .update], .err .Update)) ∧
        (env.updateOk = true → env.commitOk = false →
          increment_question_likes env db eid
            = ([.beginTx, .select, .update, .commit], .err .Commit)) ∧
        (env.updateOk = true → env.commitOk = true →
          increment_question_likes env db eid
            = ([.beginTx, .select, .update, .commit],
               .ok { db with questions :=
                       db.questions.map (fun q =>
                         if q.id == qid then
                           { q with likes := wrap32 (r.likes + 1) }
                         else q) }
                 ())))) := by
  constructor
  · rintro (hsel | hnone)
    · simp [increment_question_likes, hparse, hbegin, hsel]
    · cases hsel : env.selectOk <;>
        simp [increment_question_likes, hparse, hbegin, hsel, hnone]
  · intro r hsel hfind
    refine ⟨?_, ?_, ?_⟩
    · intro hupd
      simp [increment_question_likes, hparse, hbegin, hsel, hfind, hupd, rowGetI32]
    · intro hupd hcom
      simp [increment_question_likes, hparse, hbegin, hsel, hfind, hupd, hcom, rowGetI32]
    · intro hupd hcom
      simp [increment_question_likes, hparse, hbegin, hsel, hfind, hupd, hcom, rowGetI32]

/-- Witness for C1: running the contract on a concrete store with one
question whose `likes` is 0 yields the committed store with `likes` 1. -/
theorem C1_increment_question_likes_contract_witness :
    increment_question_likes envAllOk store1 eid1
      = ([.beginTx, .select, .update, .commit],
         .ok { store1 with questions :=
                 store1.questions.map (fun q =>
                   if q.id == 1 then { q with likes := wrap32 (qRow1.likes + 1) }
                   else q) }
           ()) :=
  ((C1_increment_question_likes_contract envAllOk store1 eid1 1 rfl rfl).2
      qRow1 rfl (by decide)).2.2 rfl rfl

/-! ## C4: contract of `delete_question` -/

/-- C4: for every identifier whose string form parses as a UUID,
`delete_question` runs inside a single transaction: it first verifies a row
with that id exists (`DbError.NotFound` if the check fails or no row
matches), then deletes it capturing the deleted id (`DbError.Deletion`, with
no commit issued, if the delete statement fails after existence was
confirmed), then commits; on success it returns the deleted identifier. -/
theorem C4_delete_question_contract
    (env : Env) (db : Store) (eid : EntityId) (qid : Nat)
    (hparse : eid.tryIntoUuid = .ok qid) (hbegin : env.beginOk = true) :
    ((env.selectOk = false ∨ db.questions.find? (fun r => r.id == qid) = none) →
       delete_question env db eid = ([.beginTx, .select], .err .NotFound)) ∧
    (∀ r, env.selectOk = true → db.questions.find? (fun r => r.id == qid) = some r →
       ((env.deleteOk = false →
          delete_question env db eid
            = ([.beginTx, .select, .delete], .err .Deletion)) ∧
        (env.deleteOk = true → env.commitOk = true →
          delete_question env db eid
            = ([.beginTx, .select, .delete, .commit],
               .ok { db with questions :=
                       db.questions.filter (fun r => !(r.id == qid)) }
                 qid)))) := by
  constructor
  · rintro (hsel | hnone)
    · simp [delete_question, hparse, hbegin, hsel]
    · cases hsel : env.selectOk <;>
        simp [delete_question, hparse, hbegin, hsel, hnone]
  · intro r hsel hfind
    refine ⟨?_, ?_⟩
    · intro hdel
      simp [delete_question, hparse, hbegin, hsel, hfind, hdel]
    · intro hdel hcom
      simp [delete_question, hparse, hbegin, hsel, hfind, hdel, hcom]

/-- Witness for C4: deleting the one question of a concrete store commits and
returns its identifier. -/
theorem C4_delete_question_contract_witness :
    delete_question envAllOk store1 eid1
      = ([.beginTx, .select, .delete, .commit],
         .ok { store1 with questions :=
                 store1.questions.filter (fun r => !(r.id == 1)) }
           1) :=
  ((C4_delete_question_contract envAllOk store1 eid1 1 rfl rfl).2
      qRow1 rfl (by decide)).2 rfl rfl

/-! ## C5: error kind reported when a commit fails -/

/-- The environment in which every statement succeeds but the commit fails. -/
def envCommitFail : Env := { envAllOk with commitOk := false }

/-- C5 counterexample: in `delete_question`, when the existence check and the
delete both succeed but the commit fails, the source maps the commit error to
`DbError.Access`, not `DbError.Commit` — refuting the claim that every
transactional operation reports a failed commit as `Commit`. -/
theorem C5_delete_question_commit_error_is_Access :
    delete_question envCommitFail store1 eid1
        = ([.beginTx, .select, .delete, .commit], .err .Access) ∧
    (delete_question envCommitFail store1 eid1).2 ≠ .err .Commit := by
  constructor
  · rfl
  · decide

/-- C5 amended: when every statement succeeds but the commit fails,
`increment_question_likes` reports `DbError.Commit`; `delete_question`
reports `DbError.Access` instead; `delete_answer` never begins a transaction
nor issues a commit; and `increment_answer_likes` never reaches its commit
(reading the absent `id` column panics first), so it never reports
`Commit`. -/
theorem C5_commit_failure_error_kinds
    (env : Env) (db : Store) (eid : EntityId) (qid : Nat)
    (hparse : eid.tryIntoUuid = .ok qid)
    (hbegin : env.beginOk = true) (hsel : env.selectOk = true)
    (hcom : env.commitOk = false) :
    (∀ r, db.questions.find? (fun r => r.id == qid) = some r →
       env.updateOk = true →
       (increment_question_likes env db eid).2 = .err .Commit) ∧
    (∀ r, db.questions.find? (fun r => r.id == qid) = some r →
       env.deleteOk = true →
       (delete_question env db eid).2 = .err .Access) ∧
    (Stmt.beginTx ∉ (delete_answer env db eid).1 ∧
     Stmt.commit ∉ (delete_answer env db eid).1) ∧
    ((increment_answer_likes env db eid).2 ≠ .err .Commit ∧
     Stmt.commit ∉ (increment_answer_likes env db eid).1) := by
  refine ⟨?_, ?_, ?_, ?_⟩
  · intro r hfind hupd
    simp [increment_question_likes, hparse, hbegin, hsel, hcom, hfind, hupd, rowGetI32]
  · intro r hfind hdel
    simp [delete_question, hparse, hbegin, hsel, hcom, hfind, hdel]
  · cases hdel : env.deleteOk <;>
      simp [delete_answer, hparse, hdel]
  · cases hfind : db.answers.find? (fun r => r.id == qid) <;>
      simp [increment_answer_likes, hparse, hbegin, hsel, hfind, rowGetI32]

/-- Witness for C5's amended statement at a concrete store and identifier:
the increment reports `Commit`, the question delete reports `Access`. -/
theorem C5_commit_failure_error_kinds_witness :
    (increment_question_likes envCommitFail store1 eid1).2 = .err .Commit ∧
    (delete_question envCommitFail store1 eid1).2 = .err .Access :=
  ⟨(C5_commit_failure_error_kinds envCommitFail store1 eid1 1 rfl rfl rfl rfl).1
      qRow1 (by decide) rfl,
   (C5_commit_failure_error_kinds envCommitFail store1 eid1 1 rfl rfl rfl rfl).2.1
      qRow1 (by decide) rfl⟩

/-! ## C3: the answer DAO does not follow the question DAO's pattern -/

/-- A store holding `qRow1` and no answers. -/
def store0 : Store := { questions := [qRow1], answers := [] }

/-- C3: the claim fails on the code. `increment_answer_likes` on an existing
answer fetches `SELECT likes ...` but then reads the absent `id` column
(`row.get::<i32,_>("id")`), which panics instead of reading the row's
current `likes` and writing back `likes + 1`. `delete_answer` never begins a
transaction and performs no existence check: on a well-formed identifier
with no matching row it issues its single (syntactically invalid:
`DELETE * FROM ...`) statement directly on the pool and returns the parsed
input id as a success instead of failing with `NotFound`. -/
theorem C3_answer_dao_diverges_from_pattern :
    increment_answer_likes envAllOk store1 eid2 = ([.beginTx, .select], .panicked) ∧
    delete_answer envAllOk store0 eid2 = ([.delete], .ok store0 2) := by
  decide

/-! ## C6: malformed identifiers fail `InvalidUuid` before any statement -/

/-- C6: for every identifier string that does not parse as a UUID, every
operation that accepts an untrusted identifier — `get`, `delete`,
`incrementLikes` in both repositories, `get_answers`, and `create_answer`
via the embedded `question_id` — fails with `DbError.InvalidUuid` and issues
no statement against the store (empty statement trace). -/
theorem C6_invalid_uuid_fails_before_any_statement
    (env : Env) (db : Store) (eid : EntityId) (e : String)
    (hparse : eid.tryIntoUuid = .error e) :
    get_question env db eid = ([], .err (.InvalidUuid e)) ∧
    delete_question env db eid = ([], .err (.InvalidUuid e)) ∧
    increment_question_likes env db eid = ([], .err (.InvalidUuid e)) ∧
    get_answer env db eid = ([], .err (.InvalidUuid e)) ∧
    get_answers env db eid = ([], .err (.InvalidUuid e)) ∧
    delete_answer env db eid = ([], .err (.InvalidUuid e)) ∧
    increment_answer_likes env db eid = ([], .err (.InvalidUuid e)) ∧
    (∀ (na : NewAnswer) (newId now : Nat), uuidParseStr na.question_id = none →
       create_answer env db newId now na
         = ([], .err (.InvalidUuid "invalid uuid"))) := by
  refine ⟨?_, ?_, ?_, ?_, ?_, ?_, ?_, ?_⟩
  · simp [get_question, hparse]
  · simp [delete_question, hparse]
  · simp [increment_question_likes, hparse]
  · simp [get_answer, hparse]
  · simp [get_answers, hparse]
  · simp [delete_answer, hparse]
  · simp [increment_answer_likes, hparse]
  · intro na newId now hna
    simp [create_answer, hna]

/-- Witness for C6 at the malformed identifier string `"invalid Uuid"` used
by the repository's own tests. -/
theorem C6_invalid_uuid_fails_before_any_statement_witness :
    get_question envAllOk store1 ⟨"invalid Uuid"⟩
        = ([], .err (.InvalidUuid "unable to parse as uuid")) ∧
    create_answer envAllOk store1 7 0 ⟨"invalid Uuid", "some answer"⟩
        = ([], .err (.InvalidUuid "invalid uuid")) :=
  ⟨(C6_invalid_uuid_fails_before_any_statement envAllOk store1 ⟨"invalid Uuid"⟩
      "unable to parse as uuid" rfl).1,
   (C6_invalid_uuid_fails_before_any_statement envAllOk store1 ⟨"invalid Uuid"⟩
      "unable to parse as uuid" rfl).2.2.2.2.2.2.2
     ⟨"invalid Uuid", "some answer"⟩ 7 0 rfl⟩

/-! ## C7: which strings resolve to a UUID -/

/-- The spec's canonical textual encoding, stated from the spec's words
("the standard 128-bit UUID textual form with hyphens"): five
hyphen-separated groups of 8, 4, 4, 4 and 12 hex digits. -/
def isCanonicalHyphenated (s : String) : Bool :=
  match splitDash s.data with
  | [a, b, c, d, e] =>
    a.length = 8 && b.length = 4 && c.length = 4 && d.length = 4 &&
      e.length = 12 && a.all isHexDigit && b.all isHexDigit &&
      c.all isHexDigit && d.all isHexDigit && e.all isHexDigit
  | _ => false

/-- Inverse of `splitDash`: interpose `'-'` between the groups. -/
def joinDash : List (List Char) → List Char
  | [] => []
  | [g] => g
  | g :: gs => g ++ '-' :: joinDash gs

theorem splitDash_ne_nil (cs : List Char) : splitDash cs ≠ [] := by
  cases cs with
  | nil => simp [splitDash]
  | cons c cs =>
    simp only [splitDash]
    split
    · simp
    · split <;> simp

theorem joinDash_splitDash (cs : List Char) : joinDash (splitDash cs) = cs := by
  induction cs with
  | nil => simp [splitDash, joinDash]
  | cons c cs ih =>
    simp only [splitDash]
    split
    · rename_i hdash
      subst hdash
      cases h : splitDash cs with
      | nil => exact absurd h (splitDash_ne_nil cs)
      | cons g gs =>
        rw [h] at ih
        simp [joinDash, ih]
    · cases h : splitDash cs with
      | nil => exact absurd h (splitDash_ne_nil cs)
      | cons g gs =>
        rw [h] at ih
        cases gs with
        | nil => simpa [joinDash] using congrArg (c :: ·) ih
        | cons g2 gs2 => simpa [joinDash] using congrArg (c :: ·) ih

/-- C7 counterexample: the 32-hex-digit simple form — which is not the
hyphenated canonical encoding — is accepted by the conversion, refuting
"succeeds only for strings in the standard hyphenated form". -/
theorem C7_simple_form_accepted :
    isCanonicalHyphenated "67e5504410b1426f9247bb680e5fe0c8" = false ∧
    (EntityId.tryIntoUuid ⟨"67e5504410b1426f9247bb680e5fe0c8"⟩).isOk = true := by
  decide

/-- C7 amended: the conversion of an `EntityId` to a UUID fails — always with
the static diagnostic `"unable to parse as uuid"` — on strings accepted by
none of the `uuid` crate's four textual encodings, and it succeeds on every
string in the spec's canonical hyphenated form; but hyphenated strings are
not the only accepted ones (see the counterexample: the 32-hex simple form
is accepted as well). -/
theorem C7_entity_id_resolution (s : String) :
    (∀ e, EntityId.tryIntoUuid ⟨s⟩ = .error e → e = "unable to parse as uuid") ∧
    (isCanonicalHyphenated s = true → (EntityId.tryIntoUuid ⟨s⟩).isOk = true) := by
  constructor
  · intro e he
    unfold EntityId.tryIntoUuid at he
    cases h : uuidParseStr s with
    | some u => rw [h] at he; cases he
    | none => rw [h] at he; cases he; rfl
  · intro hc
    unfold isCanonicalHyphenated at hc
    cases hsplit : splitDash s.data with
    | nil => rw [hsplit] at hc; cases hc
    | cons a gs =>
      rw [hsplit] at hc
      cases gs with
      | nil => cases hc
      | cons b gs =>
        cases gs with
        | nil => cases hc
        | cons c gs =>
          cases gs with
          | nil => cases hc
          | cons d gs =>
            cases gs with
            | nil => cases hc
            | cons e gs =>
              cases gs with
              | cons _ _ => cases hc
              | nil =>
                simp only [Bool.and_eq_true, decide_eq_true_eq] at hc
                obtain ⟨⟨⟨⟨⟨⟨⟨⟨⟨ha, hb⟩, hcl⟩, hd⟩, he⟩, hahex⟩, hbhex⟩,
                  hchex⟩, hdhex⟩, hehex⟩ := hc
                have hjoin : s.data = a ++ '-' :: (b ++ '-' :: (c ++ '-' :: (d ++ '-' :: e))) := by
                  have := joinDash_splitDash s.data
                  rw [hsplit] at this
                  simpa [joinDash] using this.symm
                have hlen : s.data.length = 36 := by
                  rw [hjoin]
                  simp [ha, hb, hcl, hd, he]
                have hparse : parseHyphenated s.data
                    = some ((((hexValList a * 16 ^ 4 + hexValList b) * 16 ^ 4 +
                        hexValList c) * 16 ^ 4 + hexValList d) * 16 ^ 12 +
                        hexValList e) := by
                  unfold parseHyphenated
                  rw [hsplit]
                  simp [hexGroup, ha, hb, hcl, hd, he, hahex, hbhex, hchex,
                    hdhex, hehex]
                have huuid : uuidParseStr s
                    = some ((((hexValList a * 16 ^ 4 + hexValList b) * 16 ^ 4 +
                        hexValList c) * 16 ^ 4 + hexValList d) * 16 ^ 12 +
                        hexValList e) := by
                  unfold uuidParseStr
                  rw [if_neg (by simp [hlen]), if_pos hlen]
                  exact hparse
                unfold EntityId.tryIntoUuid
                rw [huuid]
                rfl

/-- Witness for C7's amended statement: a concrete canonical hyphenated
string resolves successfully. -/
theorem C7_entity_id_resolution_witness :
    isCanonicalHyphenated "67e55044-10b1-426f-9247-bb680e5fe0c8" = true ∧
    (EntityId.tryIntoUuid ⟨"67e55044-10b1-426f-9247-bb680e5fe0c8"⟩).isOk = true :=
  ⟨by decide,
   (C7_entity_id_resolution "67e55044-10b1-426f-9247-bb680e5fe0c8").2 (by decide)⟩

/-! ## C8: error conventions of the answer repository's reads -/

/-- The environment in which row-to-entity mapping fails. -/
def envRowFail : Env := { envAllOk with fromRowOk := false }

/-- C8 counterexample: `get_answer` on a well-formed identifier with no
matching row fails with `DbError.Access`, not `DbError.NotFound`; and
`get_all_answers` surfaces a row-mapping failure as `DbError.Access`, not
`DbError.FromRow` (decoding happens inside `fetch_all`, whose error is
mapped wholesale to `Access`). -/
theorem C8_answer_reads_counterexample :
    get_answer envAllOk store0 eid2 = ([.select], .err .Access) ∧
    (get_answer envAllOk store0 eid2).2 ≠ .err .NotFound ∧
    get_all_answers envRowFail store1 = ([.select], .err .Access) ∧
    (get_all_answers envRowFail store1).2 ≠ .err .FromRow := by
  refine ⟨rfl, by decide, rfl, by decide⟩

/-- C8 amended: the answer repository's reads do not all follow the question
repository's conventions. `get_answer` maps every single-row fetch failure —
including zero rows — to `Access` (the question repository uses `NotFound`);
`get_answers` (answers scoped to one question) does follow the conventions:
query failure is `Access` and a per-row mapping failure aborts the whole
operation with `FromRow`; `get_all_answers` aborts on any failure but maps
a row-mapping failure to `Access` rather than `FromRow`. -/
theorem C8_answer_reads_error_conventions
    (env : Env) (db : Store) (eid : EntityId) (aid : Nat)
    (hparse : eid.tryIntoUuid = .ok aid) :
    ((env.selectOk = false ∨ db.answers.find? (fun r => r.id == aid) = none) →
       get_answer env db eid = ([.select], .err .Access)) ∧
    (env.selectOk = false → get_answers env db eid = ([.select], .err .Access)) ∧
    (env.selectOk = true → env.fromRowOk = false →
       (db.answers.filter (fun r => r.question_id == aid)).isEmpty = false →
       get_answers env db eid = ([.select], .err .FromRow)) ∧
    ((env.selectOk = false ∨
        (env.fromRowOk = false ∧ db.answers.isEmpty = false)) →
       get_all_answers env db = ([.select], .err .Access)) := by
  refine ⟨?_, ?_, ?_, ?_⟩
  · rintro (hsel | hnone)
    · simp [get_answer, hparse, hsel]
    · cases hsel : env.selectOk <;> simp [get_answer, hparse, hsel, hnone]
  · intro hsel
    simp [get_answers, hparse, hsel]
  · intro hsel hrow hne
    simp [get_answers, hparse, hsel, hrow, hne]
  · rintro (hsel | ⟨hrow, hne⟩)
    · simp [get_all_answers, hsel]
    · cases hsel : env.selectOk <;> simp [get_all_answers, hsel, hrow, hne]

/-- Witness for C8's amended statement: on a concrete store, `get_answer`
with no matching row yields `Access`, and `get_answers` with a failing row
mapping yields `FromRow`. -/
theorem C8_answer_reads_error_conventions_witness :
    get_answer envAllOk store1 ⟨"00000000-0000-0000-0000-000000000009"⟩
        = ([.select], .err .Access) ∧
    get_answers envRowFail store1 eid1 = ([.select], .err .FromRow) :=
  ⟨(C8_answer_reads_error_conventions envAllOk store1
      ⟨"00000000-0000-0000-0000-000000000009"⟩ 9 rfl).1 (Or.inr (by decide)),
   (C8_answer_reads_error_conventions envRowFail store1 eid1 1 rfl).2.2.1
      rfl rfl (by decide)⟩

/-! ## Helper lemmas: the shape of each operation's success result -/

theorem wrap32_succ_eq (n : Int) (h1 : -(2 ^ 31) ≤ n) (h2 : n < 2 ^ 31 - 1) :
    wrap32 (n + 1) = n + 1 := by
  unfold wrap32
  norm_num at h1 h2 ⊢
  omega

theorem zip_self_map {α β : Type} (f : α → β) :
    ∀ l : List α, l.zip (l.map f) = l.map (fun a => (a, f a))
  | [] => rfl
  | a :: l => by simp [zip_self_map f l]

theorem increment_question_likes_ok_shape
    (env : Env) (db : Store) (eid : EntityId) (s : Store) (u : Unit)
    (h : (increment_question_likes env db eid).2 = .ok s u) :
    ∃ qid r, eid.tryIntoUuid = .ok qid ∧
      db.questions.find? (fun q => q.id == qid) = some r ∧
      s = { db with questions := db.questions.map (fun q =>
              if q.id == qid then { q with likes := wrap32 (r.likes + 1) }
              else q) } := by
  unfold increment_question_likes at h
  split at h
  · simp at h
  · rename_i qid heq
    split at h
    · split at h
      · split at h
        · rename_i r hfind
          split at h
          · rename_i hget
            simp at h
          · rename_i likes hget
            simp [rowGetI32] at hget
            subst hget
            split at h
            · split at h
              · injection h with h1 h2
                exact ⟨qid, r, heq, hfind, h1.symm⟩
              · simp at h
            · simp at h
        · simp at h
      · simp at h
    · simp at h

theorem increment_answer_likes_never_ok
    (env : Env) (db : Store) (eid : EntityId) (s : Store) (u : Unit) :
    (increment_answer_likes env db eid).2 ≠ .ok s u := by
  intro h
  unfold increment_answer_likes at h
  split at h
  · simp at h
  · split at h
    · split at h
      · split at h
        · rename_i r hfind
          split at h
          · simp at h
          · rename_i likes hget
            simp [rowGetI32] at hget
        · simp at h
      · simp at h
    · simp at h

theorem delete_question_ok_shape
    (env : Env) (db : Store) (eid : EntityId) (s : Store) (v : Nat)
    (h : (delete_question env db eid).2 = .ok s v) :
    ∃ qid r, eid.tryIntoUuid = .ok qid ∧
      db.questions.find? (fun q => q.id == qid) = some r ∧ v = qid ∧
      s = { db with questions := db.questions.filter (fun q => !(q.id == qid)) } := by
  unfold delete_question at h
  split at h
  · simp at h
  · rename_i qid heq
    split at h
    · split at h
      · split at h
        · rename_i r hfind
          split at h
          · split at h
            · injection h with h1 h2
              exact ⟨qid, r, heq, hfind, h2.symm, h1.symm⟩
            · simp at h
          · simp at h
        · simp at h
      · simp at h
    · simp at h

theorem delete_answer_ok_shape
    (env : Env) (db : Store) (eid : EntityId) (s : Store) (v : Nat)
    (h : (delete_answer env db eid).2 = .ok s v) :
    ∃ aid, eid.tryIntoUuid = .ok aid ∧ v = aid ∧
      s = { db with answers := db.answers.filter (fun a => !(a.id == aid)) } := by
  unfold delete_answer at h
  split at h
  · simp at h
  · rename_i aid heq
    split at h
    · injection h with h1 h2
      exact ⟨aid, heq, h2.symm, h1.symm⟩
    · simp at h

theorem create_question_ok_shape
    (env : Env) (db : Store) (newId now : Nat) (nq : NewQuestion)
    (s : Store) (v : Nat)
    (h : (create_question env db newId now nq).2 = .ok s v) :
    v = newId ∧
    s = { db with questions := db.questions ++
            [{ id := newId, title := nq.title, question := nq.question,
               likes := 0, created_at := now }] } := by
  unfold create_question at h
  split at h
  · injection h with h1 h2
    exact ⟨h2.symm, h1.symm⟩
  · simp at h

theorem create_answer_ok_shape
    (env : Env) (db : Store) (newId now : Nat) (na : NewAnswer)
    (s : Store) (v : Nat)
    (h : (create_answer env db newId now na).2 = .ok s v) :
    ∃ qid, uuidParseStr na.question_id = some qid ∧ v = newId ∧
      s = { db with answers := db.answers ++
              [{ id := newId, question_id := qid, answer := na.answer,
                 likes := 0, created_at := now }] } := by
  unfold create_answer at h
  split at h
  · simp at h
  · rename_i qid heq
    split at h
    · injection h with h1 h2
      exact ⟨qid, heq, h2.symm, h1.symm⟩
    · simp at h

theorem get_question_ok_store (env : Env) (db : Store) (eid : EntityId)
    (s : Store) (x : QuestionRow) (h : (get_question env db eid).2 = .ok s x) :
    s = db := by
  unfold get_question at h
  split at h
  · simp at h
  · split at h
    · split at h
      · injection h with h1 h2; exact h1.symm
      · simp at h
    · simp at h

theorem get_questions_ok_store (env : Env) (db : Store)
    (s : Store) (x : List QuestionRow) (h : (get_questions env db).2 = .ok s x) :
    s = db := by
  unfold get_questions at h
  split at h
  · split at h
    · injection h with h1 h2; exact h1.symm
    · simp at h
  · simp at h

theorem get_answer_ok_store (env : Env) (db : Store) (eid : EntityId)
    (s : Store) (x : AnswerRow) (h : (get_answer env db eid).2 = .ok s x) :
    s = db := by
  unfold get_answer at h
  split at h
  · simp at h
  · split at h
    · split at h
      · injection h with h1 h2; exact h1.symm
      · simp at h
    · simp at h

theorem get_answers_ok_store (env : Env) (db : Store) (eid : EntityId)
    (s : Store) (x : List AnswerRow) (h : (get_answers env db eid).2 = .ok s x) :
    s = db := by
  unfold get_answers at h
  split at h
  · simp at h
  · dsimp only at h
    split at h
    · split at h
      · injection h with h1 h2; exact h1.symm
      · simp at h
    · simp at h

theorem get_all_answers_ok_store (env : Env) (db : Store)
    (s : Store) (x : List AnswerRow) (h : (get_all_answers env db).2 = .ok s x) :
    s = db := by
  unfold get_all_answers at h
  split at h
  · injection h with h1 h2; exact h1.symm
  · simp at h

/-! ## C9: monotone likes and immutable ids -/

/-- A question row holding the maximum `i32` likes value. -/
def qRowMax : QuestionRow :=
  { id := 1, title := "Test Question", question := "Hello this question is a test",
    likes := 2147483647, created_at := 0 }

/-- A store whose only question's likes counter is at `i32::MAX`. -/
def storeMax : Store := { questions := [qRowMax], answers := [] }

/-- C9 counterexample: on a row whose `likes` is `i32::MAX`, a successful
`increment_question_likes` writes back the wrapped value `-2^31`, which is
smaller than the row's current likes — the likes counter is not
monotonically non-decreasing at the `i32` boundary. -/
theorem C9_likes_decrease_at_i32_max :
    (increment_question_likes envAllOk storeMax eid1).2
      = .ok { storeMax with questions := [{ qRowMax with likes := -2147483648 }] } () ∧
    (-2147483648 : Int) < qRowMax.likes := by
  decide

/-- C9 amended: provided every stored likes value is a valid `i32` strictly
below `i32::MAX` and the primary key is unique, no operation writes a likes
value smaller than the row's current likes, and no operation changes an
existing row's id: a successful `increment_question_likes` keeps the id
column unchanged and only raises likes; `increment_answer_likes` never
completes successfully; deletes leave every surviving row untouched; creates
leave every pre-existing row present and untouched; reads leave the store
unchanged. At `likes = i32::MAX` the increment instead wraps below zero (see
the counterexample). -/
theorem C9_likes_monotone_ids_immutable
    (env : Env) (db : Store) (eid : EntityId) (newId now : Nat)
    (nq : NewQuestion) (na : NewAnswer)
    (hnodup : (db.questions.map (fun r => r.id)).Nodup)
    (hrange : ∀ r ∈ db.questions, -(2 ^ 31) ≤ r.likes ∧ r.likes < 2 ^ 31 - 1) :
    (∀ s u, (increment_question_likes env db eid).2 = .ok s u →
       s.answers = db.answers ∧
       s.questions.map (fun r => r.id) = db.questions.map (fun r => r.id) ∧
       ∀ p ∈ db.questions.zip s.questions, p.1.id = p.2.id ∧ p.1.likes ≤ p.2.likes) ∧
    (∀ s u, (increment_answer_likes env db eid).2 ≠ .ok s u) ∧
    (∀ s v, (delete_question env db eid).2 = .ok s v →
       s.answers = db.answers ∧ ∀ r ∈ s.questions, r ∈ db.questions) ∧
    (∀ s v, (delete_answer env db eid).2 = .ok s v →
       s.questions = db.questions ∧ ∀ r ∈ s.answers, r ∈ db.answers) ∧
    (∀ s v, (create_question env db newId now nq).2 = .ok s v →
       s.answers = db.answers ∧ ∀ r ∈ db.questions, r ∈ s.questions) ∧
    (∀ s v, (create_answer env db newId now na).2 = .ok s v →
       s.questions = db.questions ∧ ∀ r ∈ db.answers, r ∈ s.answers) ∧
    (∀ s x, (get_question env db eid).2 = .ok s x → s = db) ∧
    (∀ s x, (get_questions env db).2 = .ok s x → s = db) ∧
    (∀ s x, (get_answer env db eid).2 = .ok s x → s = db) ∧
    (∀ s x, (get_answers env db eid).2 = .ok s x → s = db) ∧
    (∀ s x, (get_all_answers env db).2 = .ok s x → s = db) := by
  refine ⟨?_, ?_, ?_, ?_, ?_, ?_, ?_, ?_, ?_, ?_, ?_⟩
  · intro s u h
    obtain ⟨qid, r, hparse, hfind, hs⟩ :=
      increment_question_likes_ok_shape env db eid s u h
    subst hs
    refine ⟨rfl, ?_, ?_⟩
    · rw [List.map_map]
      apply List.map_congr_left
      intro q hq
      by_cases hid : q.id = qid <;> simp [hid]
    · intro p hp
      rw [zip_self_map] at hp
      obtain ⟨q, hq, rfl⟩ := List.mem_map.mp hp
      constructor
      · by_cases hid : q.id = qid <;> simp [hid]
      · by_cases hid : q.id = qid
        · have hqr : q = r := by
            have hrmem := List.mem_of_find?_eq_some hfind
            have hrid := List.find?_some hfind
            simp only [beq_iff_eq] at hrid
            exact List.inj_on_of_nodup_map hnodup hq hrmem (by rw [hid, hrid])
          subst hqr
          simp only [hid, beq_self_eq_true, if_true]
          rw [wrap32_succ_eq q.likes (hrange q hq).1 (hrange q hq).2]
          omega
        · simp [hid]
  · exact fun s u => increment_answer_likes_never_ok env db eid s u
  · intro s v h
    obtain ⟨qid, r, hparse, hfind, hv, hs⟩ :=
      delete_question_ok_shape env db eid s v h
    subst hs
    exact ⟨rfl, fun r hr => List.mem_of_mem_filter hr⟩
  · intro s v h
    obtain ⟨aid, hparse, hv, hs⟩ := delete_answer_ok_shape env db eid s v h
    subst hs
    exact ⟨rfl, fun r hr => List.mem_of_mem_filter hr⟩
  · intro s v h
    obtain ⟨hv, hs⟩ := create_question_ok_shape env db newId now nq s v h
    subst hs
    exact ⟨rfl, fun r hr => List.mem_append_left _ hr⟩
  · intro s v h
    obtain ⟨qid, hq, hv, hs⟩ := create_answer_ok_shape env db newId now na s v h
    subst hs
    exact ⟨rfl, fun r hr => List.mem_append_left _ hr⟩
  · exact fun s x => get_question_ok_store env db eid s x
  · exact fun s x => get_questions_ok_store env db s x
  · exact fun s x => get_answer_ok_store env db eid s x
  · exact fun s x => get_answers_ok_store env db eid s x
  · exact fun s x => get_all_answers_ok_store env db s x

/-- The store obtained from `store1` by one successful question increment. -/
def store1inc : Store := { store1 with questions := [{ qRow1 with likes := 1 }] }

/-- Witness for C9's amended statement on a concrete store: the increment
keeps ids and does not decrease any likes value. -/
theorem C9_likes_monotone_ids_immutable_witness :
    store1inc.answers = store1.answers ∧
    store1inc.questions.map (fun r => r.id) = store1.questions.map (fun r => r.id) ∧
    ∀ p ∈ store1.questions.zip store1inc.questions,
      p.1.id = p.2.id ∧ p.1.likes ≤ p.2.likes :=
  (C9_likes_monotone_ids_immutable envAllOk store1 eid1 9 0
      ⟨"t", "q"⟩ ⟨"00000000-0000-0000-0000-000000000001", "a"⟩
      (by decide) (by decide)).1 store1inc () (by decide)

/-! ## C10: unguarded `i32` arithmetic in the likes increment -/

/-- C10: the value written back by `increment_question_likes` is the fetched
likes value plus one computed in wrapping 32-bit signed arithmetic with no
overflow check: on success the matching rows hold `wrap32 (likes + 1)`
unconditionally, and at `likes = i32::MAX` the written value is `-2^31`,
which is not larger than `i32::MAX` — the counter does not grow past the
`i32` boundary. -/
theorem C10_increment_likes_wraps_i32
    (env : Env) (db : Store) (eid : EntityId) (qid : Nat) (r : QuestionRow)
    (hparse : eid.tryIntoUuid = .ok qid)
    (hbegin : env.beginOk = true) (hsel : env.selectOk = true)
    (hupd : env.updateOk = true) (hcom : env.commitOk = true)
    (hfind : db.questions.find? (fun q => q.id == qid) = some r) :
    (increment_question_likes env db eid).2
      = .ok { db with questions := db.questions.map (fun q =>
          if q.id == qid then { q with likes := wrap32 (r.likes + 1) }
          else q) } () ∧
    wrap32 (2 ^ 31 - 1 + 1) = -(2 ^ 31) ∧
    ¬ ((2 : Int) ^ 31 - 1 < wrap32 (2 ^ 31 - 1 + 1)) := by
  refine ⟨?_, by decide, by decide⟩
  simp [increment_question_likes, hparse, hbegin, hsel, hupd, hcom, hfind, rowGetI32]

/-- Witness for C10: incrementing a concrete row whose likes is `i32::MAX`
produces the wrapped negative value. -/
theorem C10_increment_likes_wraps_i32_witness :
    (increment_question_likes envAllOk storeMax eid1).2
      = .ok { storeMax with questions := storeMax.questions.map (fun q =>
          if q.id == 1 then { q with likes := wrap32 (qRowMax.likes + 1) }
          else q) } () ∧
    wrap32 (2 ^ 31 - 1 + 1) = -(2 ^ 31) ∧
    ¬ ((2 : Int) ^ 31 - 1 < wrap32 (2 ^ 31 - 1 + 1)) :=
  C10_increment_likes_wraps_i32 envAllOk storeMax eid1 1 qRowMax
    rfl rfl rfl rfl rfl (by decide)
